import Mathlib

/-!
Verification of the Sampo 16-bit CPU core (RTL model in `src/rtl/`):
a shallow embedding of the ALU (`alu.py`), barrel shifter (`alu.py`),
register file (`regfile.py`), instruction decoder (`decode.py`) and the
multi-state execution engine (`cpu.py`), followed by theorems checking
the natural-language specification against this embedding.

Hardware signals of width `w` are modelled as `Nat` values reduced
modulo `2 ^ w` at every assignment that the RTL performs into a signal
of that width; signed reinterpretation (`as_signed`) is modelled via
`Int`.  Combinational blocks become pure functions; each synchronous
component becomes a step function from the current state and inputs to
the next state (and combinational bus outputs), mirroring the
statement-priority semantics of the source framework (a later
combinational assignment to a signal overrides an earlier one for the
whole cycle).
-/

namespace Sampo

/-- Bit-slice `x[lo : lo+w]` of a signal value, an unsigned `w`-bit field. -/
def bitField (x lo w : Nat) : Nat := (x >>> lo) % 2 ^ w

/-- Two's-complement reinterpretation of a 16-bit pattern (`Value.as_signed`). -/
def toSigned16 (x : Nat) : Int :=
  if x % 65536 < 32768 then ((x % 65536 : Nat) : Int) else ((x % 65536 : Nat) : Int) - 65536

/-- Truncating assignment of an integer value into an unsigned `m`-valued signal
(`m` is `2 ^ width`); Amaranth wraps like Python's nonnegative remainder. -/
def wrapI (v : Int) (m : Nat) : Nat := (v % (m : Int)).toNat

/-- Sign-extension of the low byte of `x` into a 16-bit pattern
(`imm8_raw.as_signed()` assigned to a 16-bit signal). -/
def sext8 (x : Nat) : Nat := if x % 256 < 128 then x % 256 else x % 256 + 0xFF00

/-- ALU operation codes (`ALUOp` in `alu.py`). -/
inductive ALUOp where
  | ADD | SUB | AND | OR | XOR | SLL | SRL | SRA
  | MUL | MULH | DIV | REM | PASS_A | PASS_B | NOT | NEG
deriving DecidableEq

/-- Combinational outputs of the ALU. -/
structure AluOut where
  result : Nat
  flag_n : Bool
  flag_z : Bool
  flag_c : Bool
  flag_v : Bool
deriving DecidableEq

/-- The 17-bit `result_wide` signal of the ALU (`ALU.elaborate`), per operation.
`a` and `b` are already masked to 16 bits by the caller.  The signed quotient
uses floor division and the signed remainder follows the divisor's sign,
matching the Python semantics the RTL framework inherits.  `mul_result` is the
32-bit signed product signal; `MULHU`'s unsigned product signal `mul_result_u`
is computed in the source but never drives `result_wide` (no case reads it). -/
def aluResultWide (op : ALUOp) (a b shamt : Nat) : Nat :=
  match op with
  | .ADD => (a + b) % 131072
  | .SUB => wrapI ((a : Int) - (b : Int)) 131072
  | .AND => (a &&& b) % 131072
  | .OR => (a ||| b) % 131072
  | .XOR => (a ^^^ b) % 131072
  | .SLL => (a <<< shamt) % 131072
  | .SRL => (a >>> shamt) % 131072
  | .SRA => wrapI ((toSigned16 a).fdiv (2 ^ shamt)) 131072
  | .MUL => wrapI (toSigned16 a * toSigned16 b) 4294967296 % 65536
  | .MULH => (wrapI (toSigned16 a * toSigned16 b) 4294967296 >>> 16) % 65536
  | .DIV => if b ≠ 0 then wrapI ((toSigned16 a).fdiv (toSigned16 b)) 131072 else 0xFFFF
  | .REM => if b ≠ 0 then wrapI ((toSigned16 a).fmod (toSigned16 b)) 131072 else a
  | .PASS_A => a
  | .PASS_B => b
  | .NOT => 65535 - b
  | .NEG => wrapI (-(toSigned16 b)) 131072

/-- The combinational ALU (`ALU.elaborate`): result is the low 16 bits of
`result_wide`; `N` is result bit 15, `Z` is result = 0, `C` is `result_wide`
bit 16, and `V` is produced only for ADD and SUB by the sign rules. -/
def aluEval (op : ALUOp) (a0 b0 shamt0 : Nat) : AluOut :=
  let a := a0 % 65536
  let b := b0 % 65536
  let shamt := shamt0 % 16
  let rw := aluResultWide op a b shamt
  let result := rw % 65536
  let a_sign := a.testBit 15
  let b_sign := b.testBit 15
  let r_sign := result.testBit 15
  { result := result
    flag_n := r_sign
    flag_z := result == 0
    flag_c := rw.testBit 16
    flag_v :=
      match op with
      | .ADD => (a_sign == b_sign) && !(a_sign == r_sign)
      | .SUB => !(a_sign == b_sign) && !(r_sign == a_sign)
      | _ => false }

/-- The barrel shifter (`Shifter.elaborate`): result and carry-out per 4-bit
function code.  All sixteen codes are covered, so the RTL default case is
unreachable. -/
def shifterEval (v0 func0 : Nat) (carry_in : Bool) : Nat × Bool :=
  let v := v0 % 65536
  let f := func0 % 16
  if f = 0x0 then ((v <<< 1) % 65536, v.testBit 15)
  else if f = 0x1 then (v >>> 1, v.testBit 0)
  else if f = 0x2 then ((v >>> 1) + (if v.testBit 15 then 32768 else 0), v.testBit 0)
  else if f = 0x3 then ((v <<< 1) % 65536 + (if v.testBit 15 then 1 else 0), v.testBit 15)
  else if f = 0x4 then ((v >>> 1) + (if v.testBit 0 then 32768 else 0), v.testBit 0)
  else if f = 0x5 then ((v <<< 1) % 65536 + (if carry_in then 1 else 0), v.testBit 15)
  else if f = 0x6 then ((v >>> 1) + (if carry_in then 32768 else 0), v.testBit 0)
  else if f = 0x7 then ((v >>> 8) + v % 256 * 256, false)
  else if f = 0x8 then ((v <<< 4) % 65536, v.testBit 12)
  else if f = 0x9 then (v >>> 4, v.testBit 3)
  else if f = 0xA then (wrapI ((toSigned16 v).fdiv 16) 65536, v.testBit 3)
  else if f = 0xB then ((v <<< 4) % 65536 + (v >>> 12), v.testBit 12)
  else if f = 0xC then ((v <<< 8) % 65536, v.testBit 8)
  else if f = 0xD then (v >>> 8, v.testBit 7)
  else if f = 0xE then (wrapI ((toSigned16 v).fdiv 256) 65536, v.testBit 7)
  else ((v <<< 8) % 65536 + (v >>> 8), v.testBit 8)

/-- The register file storage (`RegisterFile` in `regfile.py`): the main bank
R0..R15 and the alternate bank holding the shadow copies of R4..R11. -/
@[ext] structure RegFile where
  regs : Fin 16 → Nat
  alt : Fin 8 → Nat

/-- A combinational read port: address 0 returns 0 bypassing storage, any
other address returns the stored 16-bit register value.  Both read ports of
the source use this same logic. -/
def readPort (rf : RegFile) (a : Nat) : Nat :=
  if a % 16 = 0 then 0 else rf.regs ⟨a % 16, by omega⟩ % 65536

/-- One synchronous step of the register file.  The write commits only when
`wr_en` is set and the address is nonzero; the EXX swap statements come after
the write statement in the source, so for R4..R11 an EXX swap overrides a
simultaneous write, and every right-hand side samples the pre-edge values. -/
def regFileStep (rf : RegFile) (wr_en : Bool) (wr_addr wr_data : Nat) (exx : Bool) : RegFile :=
  let wregs : Fin 16 → Nat := fun i =>
    if wr_en = true ∧ wr_addr % 16 ≠ 0 ∧ i.val = wr_addr % 16 then wr_data % 65536 else rf.regs i
  if exx then
    { regs := fun i => if h : 4 ≤ i.val ∧ i.val ≤ 11 then rf.alt ⟨i.val - 4, by omega⟩ else wregs i
      alt := fun j => rf.regs ⟨j.val + 4, by omega⟩ }
  else { regs := wregs, alt := rf.alt }

/-- An EXX pulse with the write port idle, as the engine issues it. -/
def exxStep (rf : RegFile) : RegFile := regFileStep rf false 0 0 true

/-- Instruction type classification (`InstType` in `decode.py`); the I/O
class is named `Io` here. -/
inductive InstType where
  | ALU_REG | ALU_IMM | LOAD | STORE | BRANCH | JUMP | JUMP_REG
  | SHIFT | MULDIV | MISC | Io | SYSTEM | EXTENDED | INVALID
deriving DecidableEq

/-- The decoder's combinational output record (`Decoder` in `decode.py`). -/
structure DecodeOut where
  inst_type : InstType
  rd : Nat
  rs1 : Nat
  rs2 : Nat
  func : Nat
  imm8 : Nat
  imm16_out : Nat
  offset8 : Nat
  offset12 : Nat
  alu_op : ALUOp
  shift_func : Nat
  branch_cond : Nat
  mem_load : Bool
  mem_store : Bool
  mem_byte : Bool
  mem_signed : Bool
  reg_write : Bool
  is_jump : Bool
  is_branch : Bool
  is_call : Bool
  is_ret : Bool
  is_extended : Bool
  is_halt : Bool
  is_nop : Bool
  is_exx : Bool
  is_ei : Bool
  is_di : Bool
  is_reti : Bool
  is_io_in : Bool
  is_io_out : Bool
  io_port_imm : Bool
  is_push : Bool
  is_pop : Bool
deriving DecidableEq

/-- The MULDIV sub-function switch of the decoder: only MUL(0), MULH(1),
DIV(3) and REM(5) have cases; every other code, including MULHU(2), DIVU(4),
REMU(6) and DAA(7), falls through and leaves the default ALU op `ADD`. -/
def muldivOp (func : Nat) : ALUOp :=
  if func = 0x0 then .MUL
  else if func = 0x1 then .MULH
  else if func = 0x3 then .DIV
  else if func = 0x5 then .REM
  else .ADD

/-- The combinational instruction decoder (`Decoder.elaborate`).  The input
word is masked to 16 bits (the width of the `instr` signal); `imm16` is the
latched extended word. -/
def decode (instr0 imm16 : Nat) : DecodeOut :=
  let instr := instr0 % 65536
  let opcode := bitField instr 12 4
  let rd := bitField instr 8 4
  let rs1 := bitField instr 4 4
  let rs2 := bitField instr 0 4
  let func := bitField instr 0 4
  let imm8_raw := bitField instr 0 8
  let offset12_raw := bitField instr 0 12
  let base : DecodeOut :=
    { inst_type := .INVALID
      rd := rd, rs1 := rs1, rs2 := rs2, func := func
      imm8 := sext8 imm8_raw
      imm16_out := imm16 % 65536
      offset8 := sext8 imm8_raw
      offset12 := if offset12_raw.testBit 11 then offset12_raw + 0xF000 else offset12_raw
      alu_op := .ADD
      shift_func := func
      branch_cond := rd
      mem_load := false, mem_store := false, mem_byte := false, mem_signed := false
      reg_write := false
      is_jump := false, is_branch := false, is_call := false, is_ret := false
      is_extended := false
      is_halt := false, is_nop := false, is_exx := false
      is_ei := false, is_di := false, is_reti := false
      is_io_in := false, is_io_out := false, io_port_imm := false
      is_push := false, is_pop := false }
  if opcode = 0x0 then { base with inst_type := .ALU_REG, alu_op := .ADD, reg_write := true }
  else if opcode = 0x1 then { base with inst_type := .ALU_REG, alu_op := .SUB, reg_write := true }
  else if opcode = 0x2 then { base with inst_type := .ALU_REG, alu_op := .AND, reg_write := true }
  else if opcode = 0x3 then { base with inst_type := .ALU_REG, alu_op := .OR, reg_write := true }
  else if opcode = 0x4 then { base with inst_type := .ALU_REG, alu_op := .XOR, reg_write := true }
  else if opcode = 0x5 then { base with inst_type := .ALU_IMM, alu_op := .ADD, reg_write := true }
  else if opcode = 0x6 then
    let b := { base with inst_type := InstType.LOAD, mem_load := true, reg_write := true }
    if func = 0x1 then { b with mem_byte := true, mem_signed := true }
    else if func = 0x2 then { b with mem_byte := true, mem_signed := false }
    else if func = 0x8 then { b with mem_load := false, inst_type := InstType.ALU_IMM }
    else b
  else if opcode = 0x7 then
    let b := { base with inst_type := InstType.STORE, mem_store := true }
    if func = 0x1 then { b with mem_byte := true } else b
  else if opcode = 0x8 then { base with inst_type := .BRANCH, is_branch := true }
  else if opcode = 0x9 then
    if instr &&& 0x0F0F = 0x0F00 then
      { base with inst_type := .JUMP_REG, is_jump := true, is_ret := rs1 == 1 }
    else if func = 1 ∧ rd ≠ 0 then
      { base with inst_type := .JUMP_REG, is_jump := true, is_call := true, reg_write := true }
    else { base with inst_type := .JUMP, is_jump := true }
  else if opcode = 0xA then { base with inst_type := .SHIFT, reg_write := true }
  else if opcode = 0xB then
    { base with inst_type := .MULDIV, reg_write := true, alu_op := muldivOp func }
  else if opcode = 0xC then
    let b := { base with inst_type := InstType.MISC }
    if func = 0x0 then { b with is_push := true }
    else if func = 0x1 then { b with is_pop := true, reg_write := true }
    else if func = 0x2 then { b with alu_op := .SUB }
    else if func = 0x3 then { b with alu_op := .AND }
    else if func = 0x4 then { b with alu_op := .PASS_B, reg_write := true }
    else if func = 0xB then { b with is_exx := true }
    else if func = 0xC then { b with reg_write := true }
    else b
  else if opcode = 0xD then
    let b := { base with inst_type := InstType.Io }
    if func = 0x0 then { b with is_io_in := true, io_port_imm := true, reg_write := true }
    else if func = 0x1 then { b with is_io_out := true, io_port_imm := true }
    else if func = 0x2 then { b with is_io_in := true, reg_write := true }
    else if func = 0x3 then { b with is_io_out := true }
    else b
  else if opcode = 0xE then
    let b := { base with inst_type := InstType.SYSTEM }
    if rd = 0x0 then { b with is_nop := true }
    else if rd = 0x1 then { b with is_halt := true }
    else if rd = 0x2 then { b with is_di := true }
    else if rd = 0x3 then { b with is_ei := true }
    else if rd = 0x4 then { b with is_reti := true }
    else b
  else if opcode = 0xF then
    let b := { base with inst_type := InstType.EXTENDED, is_extended := true }
    if func = 0x0 then { b with alu_op := .ADD, reg_write := true }
    else if func = 0x1 then { b with alu_op := .SUB, reg_write := true }
    else if func = 0x2 then { b with alu_op := .AND, reg_write := true }
    else if func = 0x3 then { b with alu_op := .OR, reg_write := true }
    else if func = 0x4 then { b with alu_op := .XOR, reg_write := true }
    else if func = 0x5 then { b with mem_load := true, reg_write := true }
    else if func = 0x6 then { b with mem_store := true }
    else if func = 0x7 then { b with alu_op := .PASS_B, reg_write := true }
    else if func = 0x8 then { b with is_jump := true }
    else if func = 0x9 then { b with is_jump := true, is_call := true, reg_write := true }
    else if func = 0xA then { b with alu_op := .SUB }
    else if func = 0xB then { b with is_io_in := true, io_port_imm := true, reg_write := true }
    else if func = 0xC then { b with is_io_out := true, io_port_imm := true }
    else b
  else base

/-- The engine's branch-condition evaluation (`SampoCPU.elaborate`, the switch
on `decoder.branch_cond`); `fn`/`fz`/`fc`/`fv` are the four flag bits. -/
def branch_taken (cond : Nat) (fn fz fc fv : Bool) : Bool :=
  let c := cond % 16
  if c = 0x0 then fz
  else if c = 0x1 then !fz
  else if c = 0x2 then fn != fv
  else if c = 0x3 then fn == fv
  else if c = 0x4 then !fc
  else if c = 0x5 then fc
  else if c = 0x6 then fn
  else if c = 0x7 then !fn
  else if c = 0x8 then fv
  else if c = 0x9 then !fv
  else if c = 0xA then fc
  else if c = 0xB then !fc
  else if c = 0xC then !fz && (fn == fv)
  else if c = 0xD then fz || (fn != fv)
  else if c = 0xE then fc && !fz
  else !fc || fz

/-- CPU state machine states (`CPUState` in `cpu.py`). -/
inductive CpuSt where
  | RESET | FETCH | FETCH_EXT | DECODE | EXECUTE | MEMORY | WRITEBACK | HALTED
deriving DecidableEq

/-- The sequential state of the CPU core: architectural registers plus the
internal latch registers of `SampoCPU.elaborate`. -/
structure Cpu where
  st : CpuSt
  pc : Nat
  flags : Nat
  cycles : Nat
  instr : Nat
  instr_ext : Nat
  alu_result : Nat
  mem_addr_reg : Nat
  mem_data_reg : Nat
  int_enabled : Bool
  rf : RegFile

/-- Bus inputs sampled by the CPU in a cycle. -/
structure BusIn where
  mem_rdata : Nat
  mem_ready : Bool
  io_rdata : Nat
deriving DecidableEq

/-- Combinational bus outputs driven by the CPU in a cycle. -/
structure BusOut where
  mem_addr : Nat
  mem_wdata : Nat
  mem_we : Bool
  mem_be : Nat
  mem_valid : Bool
  io_addr : Nat
  io_wdata : Nat
  io_rd : Bool
  io_wr : Bool
deriving DecidableEq

/-- The default (idle) bus outputs; `mem_be` defaults to `0b11`. -/
def busIdle : BusOut :=
  { mem_addr := 0, mem_wdata := 0, mem_we := false, mem_be := 3, mem_valid := false
    io_addr := 0, io_wdata := 0, io_rd := false, io_wr := false }

/-- Write the N/Z/C/V bits (7..4) of the FLAGS register from the ALU flag
outputs, keeping bits 3..0. -/
def setNZCV (flags : Nat) (o : AluOut) : Nat :=
  flags % 16 + (if o.flag_v then 16 else 0) + (if o.flag_c then 32 else 0)
    + (if o.flag_z then 64 else 0) + (if o.flag_n then 128 else 0)

/-- The SHIFT flag update: N, Z and C are written, V (bit 4) and bits 3..0
are kept. -/
def setNZC (flags : Nat) (n z c : Bool) : Nat :=
  flags % 16 + (if flags.testBit 4 then 16 else 0) + (if c then 32 else 0)
    + (if z then 64 else 0) + (if n then 128 else 0)

/-- The EXECUTE state of the engine (`SampoCPU.elaborate`).  Where a case of
the source combinationally re-steers read port 1 to `decoder.rd` (STORE, the
register-port output, and the extended store), the steering applies for the
whole cycle, so every use of `rd_data1` in that case — including the I/O port
address and the store address — reads `R[rd]`; this is reflected below by
reading `d.rd` in those cases.  An I/O instruction with neither `is_io_in`
nor `is_io_out` sets no next state and therefore stays in EXECUTE.  CYCLES
is a 32-bit signal, so its increment wraps modulo 2^32. -/
def execStep (s : Cpu) (bi : BusIn) : Cpu × BusOut :=
  let d := decode s.instr s.instr_ext
  let fN := s.flags.testBit 7
  let fZ := s.flags.testBit 6
  let fC := s.flags.testBit 5
  let fV := s.flags.testBit 4
  let pc_plus_2 := (s.pc + 2) % 65536
  let pc_plus_4 := (s.pc + 4) % 65536
  let pc_branch := (s.pc + d.offset8 * 2) % 65536
  let pc_jump := (s.pc + d.offset12 * 2) % 65536
  let pc_def := if d.is_extended then pc_plus_4 else pc_plus_2
  let c1 := (s.cycles + 1) % 4294967296
  match d.inst_type with
  | .ALU_REG =>
    let alu := aluEval d.alu_op (readPort s.rf d.rs1) (readPort s.rf d.rs2) 0
    ({ s with pc := pc_def, alu_result := alu.result, flags := setNZCV s.flags alu,
              cycles := c1, st := .WRITEBACK }, busIdle)
  | .ALU_IMM =>
    let alu := aluEval d.alu_op (readPort s.rf d.rd) d.imm8 0
    ({ s with pc := pc_def, alu_result := alu.result, flags := setNZCV s.flags alu,
              cycles := c1, st := .WRITEBACK }, busIdle)
  | .LOAD =>
    ({ s with pc := pc_def, mem_addr_reg := readPort s.rf d.rs1, cycles := c1,
              st := .MEMORY }, busIdle)
  | .STORE =>
    ({ s with pc := pc_def, mem_addr_reg := readPort s.rf d.rd,
              mem_data_reg := readPort s.rf d.rd, cycles := c1, st := .MEMORY }, busIdle)
  | .BRANCH =>
    let bt := branch_taken d.branch_cond fN fZ fC fV
    ({ s with pc := if bt then pc_branch else pc_def, cycles := c1, st := .FETCH }, busIdle)
  | .JUMP =>
    ({ s with pc := pc_jump, cycles := c1, st := .FETCH }, busIdle)
  | .JUMP_REG =>
    if d.is_call then
      ({ s with pc := readPort s.rf d.rs1, alu_result := pc_plus_2, cycles := c1,
                st := .WRITEBACK }, busIdle)
    else ({ s with pc := readPort s.rf d.rs1, cycles := c1, st := .FETCH }, busIdle)
  | .SHIFT =>
    let sh := shifterEval (readPort s.rf d.rs1) d.shift_func fC
    ({ s with pc := pc_def, alu_result := sh.1,
              flags := setNZC s.flags (sh.1.testBit 15) (sh.1 == 0) sh.2,
              cycles := c1, st := .WRITEBACK }, busIdle)
  | .MULDIV =>
    let alu := aluEval d.alu_op (readPort s.rf d.rs1) (readPort s.rf d.rs2) 0
    ({ s with pc := pc_def, alu_result := alu.result, cycles := c1, st := .WRITEBACK }, busIdle)
  | .MISC =>
    if d.is_exx then
      ({ s with pc := pc_def, rf := regFileStep s.rf false 0 0 true, cycles := c1,
                st := .FETCH }, busIdle)
    else if d.func = 0x2 then
      let alu := aluEval d.alu_op (readPort s.rf d.rs1) (readPort s.rf d.rs2) 0
      ({ s with pc := pc_def, flags := setNZCV s.flags alu, cycles := c1, st := .FETCH }, busIdle)
    else if d.func = 0x4 then
      ({ s with pc := pc_def, alu_result := readPort s.rf d.rs1, cycles := c1,
                st := .WRITEBACK }, busIdle)
    else ({ s with pc := pc_def, cycles := c1, st := .FETCH }, busIdle)
  | .Io =>
    if d.is_io_in then
      let pa := if d.io_port_imm then d.rs1 else readPort s.rf d.rs1 % 256
      ({ s with pc := pc_def, alu_result := bi.io_rdata % 256, cycles := c1,
                st := .WRITEBACK },
       { busIdle with io_addr := pa, io_rd := true })
    else if d.is_io_out then
      let pa := if d.io_port_imm then d.rs1 else readPort s.rf d.rd % 256
      ({ s with pc := pc_def, cycles := c1, st := .FETCH },
       { busIdle with io_addr := pa, io_wdata := readPort s.rf d.rd % 256, io_wr := true })
    else ({ s with pc := pc_def, cycles := c1, st := .EXECUTE }, busIdle)
  | .SYSTEM =>
    if d.is_halt then ({ s with pc := pc_def, cycles := c1, st := .HALTED }, busIdle)
    else if d.is_ei then
      ({ s with pc := pc_def, int_enabled := true, cycles := c1, st := .FETCH }, busIdle)
    else if d.is_di then
      ({ s with pc := pc_def, int_enabled := false, cycles := c1, st := .FETCH }, busIdle)
    else ({ s with pc := pc_def, cycles := c1, st := .FETCH }, busIdle)
  | .EXTENDED =>
    if d.mem_load ∨ d.mem_store then
      if d.mem_store then
        ({ s with pc := pc_def, mem_addr_reg := (readPort s.rf d.rd + s.instr_ext) % 65536,
                  mem_data_reg := readPort s.rf d.rd, cycles := c1, st := .MEMORY }, busIdle)
      else
        ({ s with pc := pc_def, mem_addr_reg := (readPort s.rf d.rs1 + s.instr_ext) % 65536,
                  cycles := c1, st := .MEMORY }, busIdle)
    else if d.is_jump then
      if d.is_call then
        ({ s with pc := s.instr_ext, alu_result := pc_plus_4, cycles := c1,
                  st := .WRITEBACK }, busIdle)
      else ({ s with pc := s.instr_ext, cycles := c1, st := .FETCH }, busIdle)
    else if d.func = 0x7 then
      ({ s with pc := pc_def, alu_result := s.instr_ext, cycles := c1, st := .WRITEBACK }, busIdle)
    else if d.is_io_in then
      ({ s with pc := pc_def, alu_result := bi.io_rdata % 256, cycles := c1,
                st := .WRITEBACK },
       { busIdle with io_addr := s.instr_ext % 256, io_rd := true })
    else if d.is_io_out then
      ({ s with pc := pc_def, cycles := c1, st := .FETCH },
       { busIdle with io_addr := s.instr_ext % 256, io_wdata := readPort s.rf d.rs1 % 256,
                      io_wr := true })
    else
      let alu := aluEval d.alu_op (readPort s.rf d.rs1) s.instr_ext 0
      ({ s with pc := pc_def, alu_result := alu.result, flags := setNZCV s.flags alu,
                cycles := c1, st := .WRITEBACK }, busIdle)
  | .INVALID => ({ s with pc := pc_def, cycles := c1, st := .FETCH }, busIdle)

/-- One clock tick of the CPU core (`SampoCPU.elaborate`): the FSM dispatch.
`rv` is the configurable reset vector (default 0x0100 in the source). -/
def cpuStep (rv : Nat) (s : Cpu) (bi : BusIn) : Cpu × BusOut :=
  match s.st with
  | .RESET =>
    ({ s with pc := rv % 65536, flags := 0, int_enabled := false, cycles := 0,
              st := .FETCH }, busIdle)
  | .FETCH =>
    let bo := { busIdle with mem_addr := s.pc, mem_valid := true }
    if bi.mem_ready then ({ s with instr := bi.mem_rdata % 65536, st := .DECODE }, bo)
    else (s, bo)
  | .DECODE =>
    let d := decode s.instr s.instr_ext
    ({ s with st := if d.is_extended then .FETCH_EXT else .EXECUTE }, busIdle)
  | .FETCH_EXT =>
    let bo := { busIdle with mem_addr := (s.pc + 2) % 65536, mem_valid := true }
    if bi.mem_ready then ({ s with instr_ext := bi.mem_rdata % 65536, st := .EXECUTE }, bo)
    else (s, bo)
  | .EXECUTE => execStep s bi
  | .MEMORY =>
    let d := decode s.instr s.instr_ext
    let bo0 := { busIdle with mem_addr := s.mem_addr_reg, mem_valid := true }
    let bo :=
      if d.mem_store then
        if d.mem_byte then
          if s.mem_addr_reg.testBit 0 then
            { bo0 with mem_we := true, mem_be := 2, mem_wdata := (s.mem_data_reg <<< 8) % 65536 }
          else { bo0 with mem_we := true, mem_be := 1, mem_wdata := s.mem_data_reg }
        else { bo0 with mem_we := true, mem_wdata := s.mem_data_reg }
      else bo0
    if bi.mem_ready then
      if d.mem_load then
        let dta := bi.mem_rdata % 65536
        let byte := if s.mem_addr_reg.testBit 0 then (dta >>> 8) % 256 else dta % 256
        let v := if d.mem_byte then (if d.mem_signed then sext8 byte else byte) else dta
        ({ s with alu_result := v, st := .WRITEBACK }, bo)
      else ({ s with st := .FETCH }, bo)
    else (s, bo)
  | .WRITEBACK =>
    let d := decode s.instr s.instr_ext
    let rf1 := if d.reg_write then regFileStep s.rf true d.rd s.alu_result false else s.rf
    ({ s with rf := rf1, st := .FETCH }, busIdle)
  | .HALTED => (s, busIdle)

/-- An all-zero register file, for concrete runs. -/
def rf0 : RegFile := { regs := fun _ => 0, alt := fun _ => 0 }

/-- Quiet bus inputs, for concrete runs of states that ignore the bus. -/
def busQuiet : BusIn := { mem_rdata := 0, mem_ready := false, io_rdata := 0 }

/-- The branch-condition table transcribed from the specification (§4.5),
for comparison with the engine's `branch_taken`: BEQ=Z, BNE=¬Z, BLT=(N≠V),
BGE=(N=V), BLTU=¬C, BGEU=C, BMI=N, BPL=¬N, BVS=V, BVC=¬V, BCS=C, BCC=¬C,
BGT=(¬Z ∧ N=V), BLE=(Z ∨ N≠V), BHI=(C ∧ ¬Z), BLS=(¬C ∨ Z). -/
def branchTableSpec (cond : Nat) (n z c v : Bool) : Bool :=
  if cond % 16 = 0x0 then z
  else if cond % 16 = 0x1 then !z
  else if cond % 16 = 0x2 then n != v
  else if cond % 16 = 0x3 then n == v
  else if cond % 16 = 0x4 then !c
  else if cond % 16 = 0x5 then c
  else if cond % 16 = 0x6 then n
  else if cond % 16 = 0x7 then !n
  else if cond % 16 = 0x8 then v
  else if cond % 16 = 0x9 then !v
  else if cond % 16 = 0xA then c
  else if cond % 16 = 0xB then !c
  else if cond % 16 = 0xC then !z && (n == v)
  else if cond % 16 = 0xD then z || (n != v)
  else if cond % 16 = 0xE then c && !z
  else !c || z

/-- Claim C4: for every 4-bit branch condition code and every valuation of
the flags N, Z, C, V, the engine's `branch_taken` signal equals the
specification's branch table exactly. -/
theorem C4_branch_taken_matches_table :
    ∀ (cond : Fin 16) (n z c v : Bool),
      branch_taken cond.val n z c v = branchTableSpec cond.val n z c v := by decide

/-- Claim C5: for all 16-bit operands a and b, the ALU ADD operation produces
`result = (a + b) mod 2^16`, with N = bit 15 of the result, Z iff the result
is 0, C iff `a + b ≥ 2^16`, and V exactly when a and b have equal sign bits
and the result's sign bit differs from a's. -/
theorem C5_alu_add_result_and_flags (a b : Nat) (ha : a < 65536) (hb : b < 65536) :
    (aluEval ALUOp.ADD a b 0).result = (a + b) % 65536 ∧
    (aluEval ALUOp.ADD a b 0).flag_n = ((a + b) % 65536).testBit 15 ∧
    ((aluEval ALUOp.ADD a b 0).flag_z = true ↔ (a + b) % 65536 = 0) ∧
    ((aluEval ALUOp.ADD a b 0).flag_c = true ↔ 65536 ≤ a + b) ∧
    ((aluEval ALUOp.ADD a b 0).flag_v = true ↔
      (a.testBit 15 = b.testBit 15 ∧ a.testBit 15 ≠ ((a + b) % 65536).testBit 15)) := by
  have hma : a % 65536 = a := Nat.mod_eq_of_lt ha
  have hmb : b % 65536 = b := Nat.mod_eq_of_lt hb
  have hw : (a + b) % 131072 = a + b := Nat.mod_eq_of_lt (by omega)
  refine ⟨?_, ?_, ?_, ?_, ?_⟩
  · simp [aluEval, aluResultWide, hma, hmb, hw]
  · simp [aluEval, aluResultWide, hma, hmb, hw]
  · simp [aluEval, aluResultWide, hma, hmb, hw]
  · simp only [aluEval, aluResultWide, hma, hmb, hw]
    rw [Nat.testBit_to_div_mod]
    simp only [decide_eq_true_eq]
    constructor
    · intro h; omega
    · intro h; omega
  · simp only [aluEval, aluResultWide, hma, hmb, hw]
    constructor
    · intro h
      simp only [Bool.and_eq_true, beq_iff_eq, Bool.not_eq_true', beq_eq_false_iff_ne] at h
      exact h
    · intro h
      simp only [Bool.and_eq_true, beq_iff_eq, Bool.not_eq_true', beq_eq_false_iff_ne]
      exact h

/-- Witness for C5 at a = 40000, b = 30000 (sum overflows 16 bits). -/
theorem C5_alu_add_witness :
    (40000 : Nat) < 65536 ∧ (30000 : Nat) < 65536 ∧
    ((aluEval ALUOp.ADD 40000 30000 0).result = (40000 + 30000) % 65536 ∧
     (aluEval ALUOp.ADD 40000 30000 0).flag_n = ((40000 + 30000) % 65536).testBit 15 ∧
     ((aluEval ALUOp.ADD 40000 30000 0).flag_z = true ↔ (40000 + 30000) % 65536 = 0) ∧
     ((aluEval ALUOp.ADD 40000 30000 0).flag_c = true ↔ 65536 ≤ 40000 + 30000) ∧
     ((aluEval ALUOp.ADD 40000 30000 0).flag_v = true ↔
       ((40000 : Nat).testBit 15 = (30000 : Nat).testBit 15 ∧
        (40000 : Nat).testBit 15 ≠ ((40000 + 30000) % 65536).testBit 15))) :=
  ⟨by decide, by decide, C5_alu_add_result_and_flags 40000 30000 (by decide) (by decide)⟩

/-- Claim C6: for every 16-bit dividend a, the ALU with divisor b = 0 yields
0xFFFF for DIV and the dividend itself for REM; the ALU is a total function,
so no trap or error state arises. -/
theorem C6_div_rem_by_zero (a : Nat) (ha : a < 65536) :
    (aluEval ALUOp.DIV a 0 0).result = 0xFFFF ∧
    (aluEval ALUOp.REM a 0 0).result = a := by
  have hma : a % 65536 = a := Nat.mod_eq_of_lt ha
  constructor
  · simp [aluEval, aluResultWide]
  · simp [aluEval, aluResultWide, hma]

/-- Witness for C6 at a = 0xABCD. -/
theorem C6_div_rem_by_zero_witness :
    (0xABCD : Nat) < 65536 ∧
    ((aluEval ALUOp.DIV 0xABCD 0 0).result = 0xFFFF ∧
     (aluEval ALUOp.REM 0xABCD 0 0).result = 0xABCD) :=
  ⟨by decide, C6_div_rem_by_zero 0xABCD (by decide)⟩

/-- Claim C7: from any register-file state, a single EXX pulse exchanges
R[4..11] with the alternate bank (the old R[i+4] become the new alternate
values and vice versa), and two consecutive EXX pulses restore the whole
register-file state — main bank and alternate bank — exactly. -/
theorem C7_exx_swaps_and_is_involutive (rf : RegFile) :
    (∀ i : Fin 8,
      (exxStep rf).regs ⟨i.val + 4, by omega⟩ = rf.alt i ∧
      (exxStep rf).alt i = rf.regs ⟨i.val + 4, by omega⟩) ∧
    exxStep (exxStep rf) = rf := by
  have hstep : ∀ rf' : RegFile, exxStep rf' =
      { regs := fun i =>
          if h : 4 ≤ i.val ∧ i.val ≤ 11 then rf'.alt ⟨i.val - 4, by omega⟩ else rf'.regs i
        alt := fun j => rf'.regs ⟨j.val + 4, by omega⟩ } := by
    intro rf'
    apply RegFile.ext
    · funext i
      simp [exxStep, regFileStep]
    · funext j
      simp [exxStep, regFileStep]
  constructor
  · intro i
    rw [hstep]
    refine ⟨?_, ?_⟩
    · show (if h : 4 ≤ i.val + 4 ∧ i.val + 4 ≤ 11 then rf.alt ⟨i.val + 4 - 4, by omega⟩
            else rf.regs ⟨i.val + 4, by omega⟩) = rf.alt i
      rw [dif_pos (by omega)]
      exact congrArg rf.alt (Fin.ext (show i.val + 4 - 4 = i.val by omega))
    · rfl
  · rw [hstep, hstep]
    apply RegFile.ext
    · funext i
      by_cases h : 4 ≤ i.val ∧ i.val ≤ 11
      · show (if h2 : 4 ≤ i.val ∧ i.val ≤ 11 then
                RegFile.alt _ ⟨i.val - 4, by omega⟩ else RegFile.regs _ i) = rf.regs i
        rw [dif_pos h]
        show rf.regs ⟨i.val - 4 + 4, by omega⟩ = rf.regs i
        exact congrArg rf.regs (Fin.ext (show i.val - 4 + 4 = i.val by omega))
      · show (if h2 : 4 ≤ i.val ∧ i.val ≤ 11 then
                RegFile.alt _ ⟨i.val - 4, by omega⟩ else RegFile.regs _ i) = rf.regs i
        rw [dif_neg h]
        show (if h2 : 4 ≤ i.val ∧ i.val ≤ 11 then
                rf.alt ⟨i.val - 4, by omega⟩ else rf.regs i) = rf.regs i
        rw [dif_neg h]
    · funext j
      show (if h : 4 ≤ j.val + 4 ∧ j.val + 4 ≤ 11 then
              rf.alt ⟨j.val + 4 - 4, by omega⟩ else rf.regs ⟨j.val + 4, by omega⟩) = rf.alt j
      rw [dif_pos (by omega)]
      exact congrArg rf.alt (Fin.ext (show j.val + 4 - 4 = j.val by omega))

/-- Claim C8: a read with address 0 returns 0 from any register-file state
(both read ports use this logic), and a write step with `wr_addr = 0` — for
any write data and any `wr_en` — leaves the register file unchanged. -/
theorem C8_r0_reads_zero_and_ignores_writes :
    (∀ rf : RegFile, readPort rf 0 = 0) ∧
    (∀ (rf : RegFile) (en : Bool) (dta : Nat), regFileStep rf en 0 dta false = rf) := by
  constructor
  · intro rf
    simp [readPort]
  · intro rf en dta
    apply RegFile.ext
    · funext i
      simp [regFileStep]
    · simp [regFileStep]

/-- Execute-state CPU state holding instruction 0x6518: opcode 0x6 (LOAD
family), rd = 5, func = 0x8 (LUI), byte immediate field 0x18, with all
registers zero. -/
def c1State : Cpu :=
  { st := .EXECUTE, pc := 0x0100, flags := 0, cycles := 0, instr := 0x6518, instr_ext := 0
    alu_result := 0, mem_addr_reg := 0, mem_data_reg := 0, int_enabled := false, rf := rf0 }

/-- Claim C1 (failing input): LUI is indeed not a memory operation
(`mem_load` is 0), but it does not load the byte immediate into the upper
half of R[rd].  Instruction 0x6518 (LUI into R5, immediate byte 0x18) decodes
to the ALU-immediate class with the default ALU op ADD, so executing it from
R5 = 0 leaves R5 = 0x0018: bits 15:8 of the result are 0x00, not the
immediate byte 0x18 (the claim requires R5 = 0x1800). -/
theorem C1_lui_is_add_not_upper_load :
    (decode 0x6518 0).mem_load = false ∧
    (decode 0x6518 0).inst_type = InstType.ALU_IMM ∧
    (decode 0x6518 0).alu_op = ALUOp.ADD ∧
    (cpuStep 0x0100 (cpuStep 0x0100 c1State busQuiet).1 busQuiet).1.rf.regs ⟨5, by omega⟩
      = 0x0018 ∧
    bitField 0x0018 8 8 = 0x00 ∧ (0x0018 : Nat) ≠ 0x1800 := by
  refine ⟨by decide, by decide, by decide, ?_, by decide, by decide⟩
  decide

/-- Execute-state CPU state holding instruction 0xD563: opcode 0xD (I/O),
func 3 (register-port OUT), rd = 5, rs1 = 6, with R5 = 0x00AB and
R6 = 0x00CD. -/
def c3State : Cpu :=
  { st := .EXECUTE, pc := 0x0100, flags := 0, cycles := 0, instr := 0xD563, instr_ext := 0
    alu_result := 0, mem_addr_reg := 0, mem_data_reg := 0, int_enabled := false
    rf := { regs := fun i => if i.val = 5 then 0x00AB else if i.val = 6 then 0x00CD else 0
            alt := fun _ => 0 } }

/-- Claim C3 (failing input): for the register-port OUT instruction 0xD563
with R[rs1] = R6 = 0x00CD and R[rd] = R5 = 0x00AB, the engine drives
io_wdata = 0xAB (low byte of R[rd], as claimed) but io_addr = 0xAB as well —
the low byte of R[rd], not of R[rs1] — because the read port used for the
port address is combinationally re-steered to rd to fetch the data byte. -/
theorem C3_out_drives_port_from_rd :
    readPort c3State.rf 5 = 0xAB ∧ readPort c3State.rf 6 = 0xCD ∧
    (cpuStep 0x0100 c3State busQuiet).2.io_wr = true ∧
    (cpuStep 0x0100 c3State busQuiet).2.io_wdata = 0xAB ∧
    (cpuStep 0x0100 c3State busQuiet).2.io_addr = 0xAB ∧
    (cpuStep 0x0100 c3State busQuiet).2.io_addr ≠ 0xCD := by
  refine ⟨by decide, by decide, ?_, ?_, ?_, ?_⟩ <;> decide

/-- Execute-state CPU state holding instruction 0xB342: opcode 0xB (MULDIV),
rd = 3, rs1 = 4, func = rs2 = 2 (MULHU), with R4 = 0x8000 and R2 = 0x0002. -/
def c9State : Cpu :=
  { st := .EXECUTE, pc := 0x0100, flags := 0, cycles := 0, instr := 0xB342, instr_ext := 0
    alu_result := 0, mem_addr_reg := 0, mem_data_reg := 0, int_enabled := false
    rf := { regs := fun i => if i.val = 4 then 0x8000 else if i.val = 2 then 0x0002 else 0
            alt := fun _ => 0 } }

/-- Claim C9 (failing input): the decoder has no case for MULDIV func 2
(MULHU), so the ALU op stays at the default ADD.  Executing MULHU R3, R4, R2
with R4 = 0x8000 and R2 = 0x0002 writes R3 = (0x8000 + 0x0002) mod 2^16 =
0x8002, whereas the high 16 bits of the unsigned product 0x8000 * 0x0002 =
0x10000 are 0x0001. -/
theorem C9_mulhu_decodes_as_add :
    (decode 0xB342 0).inst_type = InstType.MULDIV ∧
    (decode 0xB342 0).alu_op = ALUOp.ADD ∧
    (cpuStep 0x0100 (cpuStep 0x0100 c9State busQuiet).1 busQuiet).1.rf.regs ⟨3, by omega⟩
      = 0x8002 ∧
    0x8000 * 0x0002 / 65536 = 0x0001 ∧ (0x8002 : Nat) ≠ 0x0001 := by
  refine ⟨by decide, by decide, ?_, by decide, by decide⟩
  decide

/-- Execute-state CPU state holding instruction 0xB120: opcode 0xB (MULDIV),
func 0 (MUL), rd = 1, rs1 = 2, rs2 = 0, with R2 = 0x8000 (so the product by
R0 = 0 is 0 and the ALU zero flag is set) and FLAGS = 0. -/
def c2State : Cpu :=
  { st := .EXECUTE, pc := 0x0100, flags := 0, cycles := 0, instr := 0xB120, instr_ext := 0
    alu_result := 0, mem_addr_reg := 0, mem_data_reg := 0, int_enabled := false
    rf := { regs := fun i => if i.val = 2 then 0x8000 else 0, alt := fun _ => 0 } }

/-- Claim C2 (counterexample): executing the MULDIV instruction 0xB120
(MUL R1, R2, R0) leaves FLAGS = 0 unchanged, although the ALU flag outputs
for this operation have Z set, so the flags the claim requires (value 0x40)
differ from the flags the engine produces. -/
theorem C2_muldiv_flags_counterexample :
    (cpuStep 0x0100 c2State busQuiet).1.flags = 0 ∧
    setNZCV c2State.flags
      (aluEval (decode 0xB120 0).alu_op (readPort c2State.rf 2) (readPort c2State.rf 0) 0)
      = 0x40 ∧
    (cpuStep 0x0100 c2State busQuiet).1.flags ≠
      setNZCV c2State.flags
        (aluEval (decode 0xB120 0).alu_op (readPort c2State.rf 2) (readPort c2State.rf 0) 0) := by
  refine ⟨?_, ?_, ?_⟩ <;> decide

/-- Claim C2 (amended): for every MULDIV instruction (opcode 0xB), the
EXECUTE step latches ALU_RES := alu.result (the ALU applied to R[rs1] and
R[rs2] under the decoded ALU op) and proceeds to WRITEBACK, leaving the
FLAGS register unchanged — N/Z/C/V are not updated for MULDIV. -/
theorem C2_muldiv_latches_result_without_flags
    (rv : Nat) (s : Cpu) (bi : BusIn)
    (hst : s.st = CpuSt.EXECUTE) (hlt : s.instr < 65536)
    (hop : bitField s.instr 12 4 = 0xB) :
    (cpuStep rv s bi).1.alu_result =
      (aluEval (decode s.instr s.instr_ext).alu_op
        (readPort s.rf (bitField s.instr 4 4)) (readPort s.rf (bitField s.instr 0 4)) 0).result ∧
    (cpuStep rv s bi).1.flags = s.flags ∧
    (cpuStep rv s bi).1.st = CpuSt.WRITEBACK := by
  have hmod : s.instr % 65536 = s.instr := Nat.mod_eq_of_lt hlt
  simp [cpuStep, execStep, decode, hst, hmod, hop]

/-- Witness for the amended C2 at the concrete MULDIV state `c2State`. -/
theorem C2_muldiv_witness :
    c2State.st = CpuSt.EXECUTE ∧ c2State.instr < 65536 ∧
    bitField c2State.instr 12 4 = 0xB ∧
    ((cpuStep 0x0100 c2State busQuiet).1.alu_result =
      (aluEval (decode c2State.instr c2State.instr_ext).alu_op
        (readPort c2State.rf (bitField c2State.instr 4 4))
        (readPort c2State.rf (bitField c2State.instr 0 4)) 0).result ∧
     (cpuStep 0x0100 c2State busQuiet).1.flags = c2State.flags ∧
     (cpuStep 0x0100 c2State busQuiet).1.st = CpuSt.WRITEBACK) :=
  ⟨by decide, by decide, by decide,
   C2_muldiv_latches_result_without_flags 0x0100 c2State busQuiet
     (by decide) (by decide) (by decide)⟩

/-- Claim C10: executing TEST (opcode 0xC, func 3) changes neither FLAGS nor
any register (main or alternate bank): its EXECUTE step goes straight back to
FETCH with idle bus outputs, so the only architectural effects are PC
advancing by 2 (modulo 2^16) and the 32-bit CYCLES counter incrementing by 1
(modulo 2^32); INT_ENABLED is untouched. -/
theorem C10_test_changes_only_pc_and_cycles
    (rv : Nat) (s : Cpu) (bi : BusIn)
    (hst : s.st = CpuSt.EXECUTE) (hlt : s.instr < 65536)
    (hop : bitField s.instr 12 4 = 0xC) (hf : bitField s.instr 0 4 = 0x3) :
    (cpuStep rv s bi).1.flags = s.flags ∧
    (cpuStep rv s bi).1.rf = s.rf ∧
    (cpuStep rv s bi).1.pc = (s.pc + 2) % 65536 ∧
    (cpuStep rv s bi).1.cycles = (s.cycles + 1) % 4294967296 ∧
    (cpuStep rv s bi).1.int_enabled = s.int_enabled ∧
    (cpuStep rv s bi).1.st = CpuSt.FETCH ∧
    (cpuStep rv s bi).2 = busIdle := by
  have hmod : s.instr % 65536 = s.instr := Nat.mod_eq_of_lt hlt
  simp [cpuStep, execStep, decode, hst, hmod, hop, hf]

/-- Execute-state CPU state holding instruction 0xC123: opcode 0xC (MISC),
rd = 1, rs1 = 2, func 3 (TEST), with nonzero FLAGS and running counters. -/
def c10State : Cpu :=
  { st := .EXECUTE, pc := 0x0200, flags := 0xA0, cycles := 7, instr := 0xC123, instr_ext := 0
    alu_result := 0, mem_addr_reg := 0, mem_data_reg := 0, int_enabled := true, rf := rf0 }

/-- Witness for C10 at the concrete TEST state `c10State`. -/
theorem C10_test_witness :
    c10State.st = CpuSt.EXECUTE ∧ c10State.instr < 65536 ∧
    bitField c10State.instr 12 4 = 0xC ∧ bitField c10State.instr 0 4 = 0x3 ∧
    ((cpuStep 0x0100 c10State busQuiet).1.flags = c10State.flags ∧
     (cpuStep 0x0100 c10State busQuiet).1.rf = c10State.rf ∧
     (cpuStep 0x0100 c10State busQuiet).1.pc = (c10State.pc + 2) % 65536 ∧
     (cpuStep 0x0100 c10State busQuiet).1.cycles = (c10State.cycles + 1) % 4294967296 ∧
     (cpuStep 0x0100 c10State busQuiet).1.int_enabled = c10State.int_enabled ∧
     (cpuStep 0x0100 c10State busQuiet).1.st = CpuSt.FETCH ∧
     (cpuStep 0x0100 c10State busQuiet).2 = busIdle) :=
  ⟨by decide, by decide, by decide, by decide,
   C10_test_changes_only_pc_and_cycles 0x0100 c10State busQuiet
     (by decide) (by decide) (by decide) (by decide)⟩

end Sampo
